import Mathlib

/-!
Verification development for the library circulation system in
`src/library_management.py`.

The Python classes are embedded shallowly:

* `datetime` values are modelled as rationals counting days since an arbitrary
  epoch; `timedelta(days=n)` is addition of `n`; `(a - b).days` for a positive
  difference is `Rat.floor (a - b)`.  Every operation reads a single `now`
  threaded as an explicit argument.
* Python floats `0.25`, `0.50`, `1.00` are the exact rationals `1/4`, `1/2`,
  `1`.
* Dynamic dispatch of `get_checkout_period` / `calculate_fine` over the classes
  `Book`, `DVD`, `CD` is modelled by an `ItemKind` tag; `CD` overrides both
  methods of `Book`, so each kind has its own table entry.
* Mutation is explicit state passing: a Python method that mutates `self` and
  returns `r` becomes a Lean function returning `r × <new state>`.
* A patron's `checked_out_items` list of item objects is modelled by the list
  of their item ids.
-/

/-- Mirrors the Python `ItemStatus` enum. -/
inductive ItemStatus
  | available
  | checkedOut
  | reserved
  | damaged
  | lost
deriving DecidableEq

/-- Kind tag standing for the concrete subclass of `LibraryItem`
(`Book`, `DVD`, `CD`) that an item was constructed from. -/
inductive ItemKind
  | book
  | dvd
  | cd
deriving DecidableEq

/-- One entry of `LibraryItem.checkout_history`
(`{'patron_id': ..., 'checkout_date': ..., 'due_date': ...}`). -/
structure HistoryEntry where
  patron_id : Int
  checkout_date : ℚ
  due_date : ℚ
deriving DecidableEq

/-- State of a `LibraryItem` instance (fields set in `LibraryItem.__init__`,
plus the kind tag carried by the concrete subclass). -/
structure LibraryItem where
  item_id : Int
  title : String
  category : String
  kind : ItemKind
  status : ItemStatus
  checkout_count : Nat
  checkout_history : List HistoryEntry
  current_patron : Option Int
  due_date : Option ℚ
  reservation_queue : List Int
deriving DecidableEq

/-- `get_checkout_period` of `Book` (21), `DVD` (7), `CD` (14) — `CD`
overrides the method it inherits from `Book`. -/
def get_checkout_period : ItemKind → Nat
  | ItemKind.book => 21
  | ItemKind.dvd => 7
  | ItemKind.cd => 14

/-- The per-day fine rates hard-coded in `calculate_fine` of `Book`
(`0.25`), `DVD` (`1.00`), `CD` (`0.50`). -/
def fine_rate : ItemKind → ℚ
  | ItemKind.book => 1/4
  | ItemKind.dvd => 1
  | ItemKind.cd => 1/2

/-- `calculate_fine(days_overdue)` of each subclass:
`days_overdue * <per-day rate>`. -/
def calculate_fine (k : ItemKind) (days_overdue : Int) : ℚ :=
  (days_overdue : ℚ) * fine_rate k

/-- `LibraryItem.__init__` followed by the subclass constructor: a fresh item
is `AVAILABLE` with empty history, no holder, no due date, empty queue. -/
def mk_fresh_item (item_id : Int) (title category : String) (k : ItemKind) :
    LibraryItem :=
  { item_id := item_id
    title := title
    category := category
    kind := k
    status := ItemStatus.available
    checkout_count := 0
    checkout_history := []
    current_patron := none
    due_date := none
    reservation_queue := [] }

/-- `LibraryItem.checkout(patron_id)`: if the status is `AVAILABLE` the item
becomes `CHECKED_OUT` held by `patron_id`, the count goes up by one, the due
date becomes `now + checkout_period` and one history entry is appended;
otherwise the method returns `False` and changes nothing. -/
def LibraryItem.checkout (it : LibraryItem) (patron_id : Int) (now : ℚ) :
    Bool × LibraryItem :=
  if it.status = ItemStatus.available then
    let due : ℚ := now + (get_checkout_period it.kind : ℚ)
    (true,
      { it with
        status := ItemStatus.checkedOut
        current_patron := some patron_id
        checkout_count := it.checkout_count + 1
        due_date := some due
        checkout_history := it.checkout_history ++
          [{ patron_id := patron_id, checkout_date := now, due_date := due }] })
  else
    (false, it)

/-- `LibraryItem.checkin(condition)`: unconditionally resets the status to
`AVAILABLE`, computes the fine (`calculate_fine((now - due_date).days)` when
`due_date` is set and `now > due_date`, else `0.0`), clears holder and due
date, and pops the head of the reservation queue when it is non-empty.  The
`condition` argument is accepted and ignored, exactly as in the source. -/
def LibraryItem.checkin (it : LibraryItem) (condition : String) (now : ℚ) :
    ℚ × LibraryItem :=
  let _ := condition
  let fine : ℚ :=
    match it.due_date with
    | some due =>
        if due < now then calculate_fine it.kind (Rat.floor (now - due)) else 0
    | none => 0
  let queue :=
    match it.reservation_queue with
    | [] => it.reservation_queue
    | _ :: rest => rest
  (fine,
    { it with
      status := ItemStatus.available
      current_patron := none
      due_date := none
      reservation_queue := queue })

/-- `LibraryItem.reserve(patron_id)`: appends `patron_id` to the reservation
queue and returns `True` when it is not already queued, else returns `False`
unchanged. -/
def LibraryItem.reserve (it : LibraryItem) (patron_id : Int) :
    Bool × LibraryItem :=
  if patron_id ∈ it.reservation_queue then
    (false, it)
  else
    (true, { it with reservation_queue := it.reservation_queue ++ [patron_id] })

/-- One entry of `Patron.borrowing_history`
(`{'item_id': ..., 'title': ..., 'checkout_date': ..., 'due_date': ...}`). -/
structure BorrowEntry where
  item_id : Int
  title : String
  checkout_date : ℚ
  due_date : ℚ
deriving DecidableEq

/-- State of a `Patron` instance (the fields the modelled operations touch;
`checked_out_items` holds the borrowed items' ids). -/
structure Patron where
  person_id : Int
  name : String
  email : String
  membership_level : String
  checked_out_items : List Int
  reserved_items : List Int
  fines : ℚ
  borrowing_history : List BorrowEntry
deriving DecidableEq

/-- `Patron.get_max_checkouts`: tier table with default 5 for an
unrecognized membership level. -/
def Patron.get_max_checkouts (p : Patron) : Nat :=
  if p.membership_level = "Standard" then 5
  else if p.membership_level = "Premium" then 10
  else if p.membership_level = "Student" then 3
  else if p.membership_level = "Faculty" then 15
  else 5

/-- `Patron.checkout_item(item)`: if the patron is below the tier limit the
item is appended to `checked_out_items` and a borrowing-history entry with the
item's computed due date is appended; otherwise returns `False` unchanged. -/
def Patron.checkout_item (p : Patron) (it : LibraryItem) (now : ℚ) :
    Bool × Patron :=
  if p.checked_out_items.length < p.get_max_checkouts then
    (true,
      { p with
        checked_out_items := p.checked_out_items ++ [it.item_id]
        borrowing_history := p.borrowing_history ++
          [{ item_id := it.item_id
             title := it.title
             checkout_date := now
             due_date := now + (get_checkout_period it.kind : ℚ) }] })
  else
    (false, p)

/-- `Librarian.process_checkout(patron, item)`: calls `patron.checkout_item`
first; only when that succeeds does it call `item.checkout(patron.person_id)`
(whose boolean result it discards) and return `True`; otherwise `False`. -/
def process_checkout (p : Patron) (it : LibraryItem) (now : ℚ) :
    Bool × Patron × LibraryItem :=
  match p.checkout_item it now with
  | (true, p1) => (true, p1, (it.checkout p.person_id now).2)
  | (false, p1) => (false, p1, it)

/-- One item record of the persisted JSON document as consumed by
`Catalog.load_from_file`: `none` fields stand for keys absent from the
record (`dict.get` / `dict.pop` defaults apply). -/
structure ItemRecord where
  type_tag : Option String
  item_id : Int
  title : String
  author : Option String
  director : Option String
  artist : Option String
  category : Option String
  status : Option String
  checkout_count : Option Nat
deriving DecidableEq

/-- `ItemStatus(value)` lookup by the enum's string value. -/
def parse_status : String → Option ItemStatus
  | "Available" => some ItemStatus.available
  | "Checked Out" => some ItemStatus.checkedOut
  | "Reserved" => some ItemStatus.reserved
  | "Damaged" => some ItemStatus.damaged
  | "Lost" => some ItemStatus.lost
  | _ => none

/-- The per-record body of the item loop in `Catalog.load_from_file`:
`item_type = item_data.pop('type', 'Book')`; `Book`/`DVD`/`CD` construct the
matching subclass (with the per-kind category default), any other tag hits
`continue` and the record is skipped; then `status` (default `'Available'`)
and `checkout_count` (default 0) are restored — `current_patron`, `due_date`,
history and queue are NOT restored.  An invalid status string raises in the
source and aborts the whole load; here such a record maps to `none`, a case no
theorem below depends on. -/
def load_item (r : ItemRecord) : Option LibraryItem :=
  let item_type := r.type_tag.getD "Book"
  let base : Option LibraryItem :=
    if item_type = "Book" then
      some (mk_fresh_item r.item_id r.title (r.category.getD "General")
        ItemKind.book)
    else if item_type = "DVD" then
      some (mk_fresh_item r.item_id r.title (r.category.getD "Entertainment")
        ItemKind.dvd)
    else if item_type = "CD" then
      some (mk_fresh_item r.item_id r.title (r.category.getD "Music")
        ItemKind.cd)
    else
      none
  match base with
  | none => none
  | some it =>
      match parse_status (r.status.getD "Available") with
      | none => none
      | some st =>
          some { it with status := st
                         checkout_count := r.checkout_count.getD 0 }

/-- The item invariant of the spec: `current_holder` is set iff the status is
`CHECKED_OUT`, `due_date` is set iff the holder is set, and the reservation
queue has no duplicate patron id. -/
def item_invariant (it : LibraryItem) : Prop :=
  (it.current_patron.isSome = true ↔ it.status = ItemStatus.checkedOut) ∧
  (it.due_date.isSome = true ↔ it.current_patron.isSome = true) ∧
  it.reservation_queue.Nodup

/-- Item states reachable from a freshly constructed item through the three
mutating item operations `checkout`, `checkin`, `reserve`. -/
inductive ItemReachable : LibraryItem → Prop
  | init (item_id : Int) (title category : String) (k : ItemKind) :
      ItemReachable (mk_fresh_item item_id title category k)
  | step_checkout (it : LibraryItem) (patron_id : Int) (now : ℚ) :
      ItemReachable it → ItemReachable (it.checkout patron_id now).2
  | step_checkin (it : LibraryItem) (condition : String) (now : ℚ) :
      ItemReachable it → ItemReachable (it.checkin condition now).2
  | step_reserve (it : LibraryItem) (patron_id : Int) :
      ItemReachable it → ItemReachable (it.reserve patron_id).2

/-! Concrete sample states used to instantiate the theorems below. -/

/-- A freshly added book. -/
def sample_book : LibraryItem := mk_fresh_item 1 "X" "General" ItemKind.book

/-- The sample book after a checkout: held by patron 7, due at day 5. -/
def sample_checked_out : LibraryItem :=
  { sample_book with
    status := ItemStatus.checkedOut
    current_patron := some 7
    due_date := some 5
    checkout_count := 1 }

/-- The sample book marked damaged. -/
def sample_damaged : LibraryItem :=
  { sample_book with status := ItemStatus.damaged }

/-- The checked-out sample book with two queued reservations. -/
def sample_queued : LibraryItem :=
  { sample_checked_out with reservation_queue := [4, 8] }

/-- A Student-tier patron already holding three items (the tier limit). -/
def sample_student : Patron :=
  { person_id := 2
    name := "Jane"
    email := "jane"
    membership_level := "Student"
    checked_out_items := [10, 11, 12]
    reserved_items := []
    fines := 0
    borrowing_history := [] }

/-- A Standard-tier patron holding nothing. -/
def sample_standard : Patron :=
  { sample_student with
    person_id := 3
    membership_level := "Standard"
    checked_out_items := [] }

/-! Claim theorems. -/

/-- C1: `Item.checkout(patron_id)` returns `True` iff the status is
`Available`; on success it sets the status to `CheckedOut`, the holder to
`patron_id`, increments `checkout_count` by one, sets the due date to
`now + checkout_period(kind)` and appends exactly one history entry; on any
other status it returns `False` and the state is exactly unchanged (the
method is total — no exception). -/
theorem checkout_correct (it : LibraryItem) (pid : Int) (now : ℚ) :
    ((it.checkout pid now).1 = true ↔ it.status = ItemStatus.available) ∧
    (it.status = ItemStatus.available →
      (it.checkout pid now).2.status = ItemStatus.checkedOut ∧
      (it.checkout pid now).2.current_patron = some pid ∧
      (it.checkout pid now).2.checkout_count = it.checkout_count + 1 ∧
      (it.checkout pid now).2.due_date =
        some (now + (get_checkout_period it.kind : ℚ)) ∧
      (it.checkout pid now).2.checkout_history =
        it.checkout_history ++
          [{ patron_id := pid, checkout_date := now,
             due_date := now + (get_checkout_period it.kind : ℚ) }]) ∧
    (it.status ≠ ItemStatus.available → it.checkout pid now = (false, it)) := by
  unfold LibraryItem.checkout
  by_cases h : it.status = ItemStatus.available <;> simp [h]

/-- Witness for C1 at concrete inputs: a fresh book checks out successfully
and becomes `CheckedOut`, while a damaged item is refused unchanged. -/
theorem checkout_correct_witness :
    (sample_book.checkout 7 0).2.status = ItemStatus.checkedOut ∧
    sample_damaged.checkout 7 0 = (false, sample_damaged) :=
  ⟨((checkout_correct sample_book 7 0).2.1 rfl).1,
   (checkout_correct sample_damaged 7 0).2.2 (by decide)⟩

/-- C10: on an item whose status is not `Available`, `checkout` returns
`False` and the whole item state — status, holder, due date, count, history,
reservation queue — is exactly as before. -/
theorem checkout_frame (it : LibraryItem) (pid : Int) (now : ℚ)
    (h : it.status ≠ ItemStatus.available) :
    it.checkout pid now = (false, it) := by
  unfold LibraryItem.checkout
  simp [h]

/-- Witness for C10: checking out an already checked-out item at a concrete
input leaves the full state unchanged. -/
theorem checkout_frame_witness :
    sample_checked_out.checkout 9 0 = (false, sample_checked_out) :=
  checkout_frame sample_checked_out 9 0 (by decide)

/-- C3: the kind table is Book: 21 days at 0.25/day, DVD: 7 days at
1.00/day, CD: 14 days at 0.50/day; `calculate_fine` at 5 days overdue gives
1.25 / 5.00 / 2.50, and the CD entries differ from the Book entries it
shares its representation with. -/
theorem kind_policy_table :
    get_checkout_period ItemKind.book = 21 ∧ fine_rate ItemKind.book = 1/4 ∧
    get_checkout_period ItemKind.dvd = 7 ∧ fine_rate ItemKind.dvd = 1 ∧
    get_checkout_period ItemKind.cd = 14 ∧ fine_rate ItemKind.cd = 1/2 ∧
    calculate_fine ItemKind.book 5 = 5/4 ∧
    calculate_fine ItemKind.dvd 5 = 5 ∧
    calculate_fine ItemKind.cd 5 = 5/2 ∧
    get_checkout_period ItemKind.cd ≠ get_checkout_period ItemKind.book ∧
    fine_rate ItemKind.cd ≠ fine_rate ItemKind.book := by
  norm_num [get_checkout_period, fine_rate, calculate_fine]

/-- C2: `checkin` is total: whatever the current status, the item ends
`Available` with holder and due date cleared, and the returned fine is
`floor(now - due_date)` whole days times the kind's rate when the due date is
set and past, and `0` when the item is not overdue or has no due date. -/
theorem checkin_total (it : LibraryItem) (c : String) (now : ℚ) :
    (it.checkin c now).2.status = ItemStatus.available ∧
    (it.checkin c now).2.current_patron = none ∧
    (it.checkin c now).2.due_date = none ∧
    (∀ due : ℚ, it.due_date = some due → due < now →
      (it.checkin c now).1 = (Rat.floor (now - due) : ℚ) * fine_rate it.kind) ∧
    (∀ due : ℚ, it.due_date = some due → ¬ due < now →
      (it.checkin c now).1 = 0) ∧
    (it.due_date = none → (it.checkin c now).1 = 0) := by
  unfold LibraryItem.checkin
  cases hd : it.due_date with
  | none => simp [hd]
  | some due =>
      by_cases hlt : due < now <;> simp [hd, hlt, calculate_fine]

/-- Witness for C2 at concrete inputs: checking in the sample item (due at
day 5) at day 15 clears the state and charges 10 days at the Book rate. -/
theorem checkin_total_witness :
    (sample_checked_out.checkin "Good" 15).2.status = ItemStatus.available ∧
    (sample_checked_out.checkin "Good" 15).1 =
      (Rat.floor ((15 : ℚ) - 5) : ℚ) * fine_rate sample_checked_out.kind :=
  ⟨(checkin_total sample_checked_out "Good" 15).1,
   (checkin_total sample_checked_out "Good" 15).2.2.2.1 5 rfl (by norm_num)⟩

/-- C8: `reserve` never changes the status, is a no-op when the patron is
already queued, appends to the queue end otherwise, and reserving twice from
an empty queue leaves the queue length at exactly 1. -/
theorem reserve_idempotent (it : LibraryItem) (pid : Int) :
    (it.reserve pid).2.status = it.status ∧
    (pid ∈ it.reservation_queue → it.reserve pid = (false, it)) ∧
    (pid ∉ it.reservation_queue →
      (it.reserve pid).2.reservation_queue = it.reservation_queue ++ [pid]) ∧
    (it.reservation_queue = [] →
      ((it.reserve pid).2.reserve pid).2.reservation_queue.length = 1) := by
  unfold LibraryItem.reserve
  by_cases h : pid ∈ it.reservation_queue
  · refine ⟨by simp [h], by simp [h], by simp [h], ?_⟩
    intro hq
    rw [hq] at h
    simp at h
  · refine ⟨by simp [h], by simp [h], by simp [h], ?_⟩
    intro hq
    simp [h, hq]

/-- Witness for C8: reserving twice for patron 4 on the fresh sample book
(empty queue) leaves one queue entry. -/
theorem reserve_idempotent_witness :
    ((sample_book.reserve 4).2.reserve 4).2.reservation_queue.length = 1 :=
  (reserve_idempotent sample_book 4).2.2.2 rfl

/-- C4: a patron already at (or beyond) the tier limit is rejected by
`process_checkout` before the item is even looked at: the call returns
`False` and both the patron and the item — whatever its status — are exactly
unchanged. -/
theorem process_checkout_at_limit (p : Patron) (it : LibraryItem) (now : ℚ)
    (h : p.get_max_checkouts ≤ p.checked_out_items.length) :
    process_checkout p it now = (false, p, it) := by
  unfold process_checkout Patron.checkout_item
  simp [Nat.not_lt.mpr h]

/-- Witness for C4: the Student patron holding three items is rejected for an
available book, which stays in its prior state. -/
theorem process_checkout_at_limit_witness :
    process_checkout sample_student sample_book 0 =
      (false, sample_student, sample_book) :=
  process_checkout_at_limit sample_student sample_book 0 (by decide)

/-- C6: for a patron below the limit and an item that is not `Available`,
`process_checkout` performs and keeps the patron-side mutation — the item id
is appended to `checked_out_items` and a borrowing-history entry is appended —
while the item itself is unchanged (never checked out); there is no
rollback. -/
theorem process_checkout_no_rollback (p : Patron) (it : LibraryItem) (now : ℚ)
    (hlim : p.checked_out_items.length < p.get_max_checkouts)
    (hst : it.status ≠ ItemStatus.available) :
    process_checkout p it now =
      (true,
        { p with
          checked_out_items := p.checked_out_items ++ [it.item_id]
          borrowing_history := p.borrowing_history ++
            [{ item_id := it.item_id
               title := it.title
               checkout_date := now
               due_date := now + (get_checkout_period it.kind : ℚ) }] },
        it) := by
  unfold process_checkout Patron.checkout_item LibraryItem.checkout
  simp [hlim, hst]

/-- Witness for C6: the empty-handed Standard patron paired with the already
checked-out sample item keeps the patron-side append while the item is
untouched. -/
theorem process_checkout_no_rollback_witness :
    process_checkout sample_standard sample_checked_out 0 =
      (true,
        { sample_standard with
          checked_out_items :=
            sample_standard.checked_out_items ++ [sample_checked_out.item_id]
          borrowing_history := sample_standard.borrowing_history ++
            [{ item_id := sample_checked_out.item_id
               title := sample_checked_out.title
               checkout_date := 0
               due_date :=
                 0 + (get_checkout_period sample_checked_out.kind : ℚ) }] },
        sample_checked_out) :=
  process_checkout_no_rollback sample_standard sample_checked_out 0
    (by decide) (by decide)

/-- C7: `checkin` on an item with a non-empty reservation queue removes
exactly the head entry (the queue shrinks by one), and the item ends
`Available` with no holder — the popped patron is not assigned the item. -/
theorem checkin_pops_head (it : LibraryItem) (c : String) (now : ℚ)
    (head : Int) (rest : List Int)
    (h : it.reservation_queue = head :: rest) :
    (it.checkin c now).2.reservation_queue = rest ∧
    (it.checkin c now).2.reservation_queue.length + 1 =
      it.reservation_queue.length ∧
    (it.checkin c now).2.status = ItemStatus.available ∧
    (it.checkin c now).2.current_patron = none := by
  unfold LibraryItem.checkin
  simp [h]

/-- Witness for C7: checking in the sample item queued for patrons 4 and 8
leaves exactly the queue `[8]` and the item available with no holder. -/
theorem checkin_pops_head_witness :
    (sample_queued.checkin "Good" 0).2.reservation_queue = [8] ∧
    (sample_queued.checkin "Good" 0).2.status = ItemStatus.available ∧
    (sample_queued.checkin "Good" 0).2.current_patron = none :=
  ⟨(checkin_pops_head sample_queued "Good" 0 4 [8] rfl).1,
   (checkin_pops_head sample_queued "Good" 0 4 [8] rfl).2.2.1,
   (checkin_pops_head sample_queued "Good" 0 4 [8] rfl).2.2.2⟩

/-- C5 (amended): every item state reachable from a fresh item through
`checkout`, `checkin` and `reserve` satisfies the invariant — holder set iff
`CheckedOut`, due date set iff holder set, no duplicate in the reservation
queue.  The import path is excluded: `load_from_file` restores the saved
status without restoring holder or due date, so an imported `Checked Out`
record violates the invariant (see the counterexample). -/
theorem item_invariant_reachable (it : LibraryItem) (h : ItemReachable it) :
    item_invariant it := by
  induction h with
  | init item_id title category k =>
      exact ⟨by simp [mk_fresh_item], by simp [mk_fresh_item],
        by simp [mk_fresh_item]⟩
  | step_checkout it pid now _ ih =>
      obtain ⟨h1, h2, h3⟩ := ih
      by_cases hs : it.status = ItemStatus.available
      · exact ⟨by simp [LibraryItem.checkout, hs],
          by simp [LibraryItem.checkout, hs],
          by simpa [LibraryItem.checkout, hs] using h3⟩
      · exact ⟨by simpa [LibraryItem.checkout, hs] using h1,
          by simpa [LibraryItem.checkout, hs] using h2,
          by simpa [LibraryItem.checkout, hs] using h3⟩
  | step_checkin it c now _ ih =>
      obtain ⟨h1, h2, h3⟩ := ih
      refine ⟨by simp [LibraryItem.checkin], by simp [LibraryItem.checkin], ?_⟩
      cases hq : it.reservation_queue with
      | nil => simp [LibraryItem.checkin, hq]
      | cons a rest =>
          rw [hq] at h3
          simpa [LibraryItem.checkin, hq] using (List.nodup_cons.mp h3).2
  | step_reserve it pid _ ih =>
      obtain ⟨h1, h2, h3⟩ := ih
      by_cases hm : pid ∈ it.reservation_queue
      · exact ⟨by simpa [LibraryItem.reserve, hm] using h1,
          by simpa [LibraryItem.reserve, hm] using h2,
          by simpa [LibraryItem.reserve, hm] using h3⟩
      · refine ⟨by simpa [LibraryItem.reserve, hm] using h1,
          by simpa [LibraryItem.reserve, hm] using h2, ?_⟩
        have hnd : (it.reservation_queue ++ [pid]).Nodup := by
          simp [List.nodup_append, h3, hm]
        simpa [LibraryItem.reserve, hm] using hnd

/-- Witness for C5 (amended): the freshly constructed sample book is
reachable and satisfies the invariant. -/
theorem item_invariant_reachable_witness :
    item_invariant (mk_fresh_item 1 "X" "General" ItemKind.book) :=
  item_invariant_reachable _ (ItemReachable.init 1 "X" "General" ItemKind.book)

/-- A persisted record of a book that was saved while checked out. -/
def c5_record : ItemRecord :=
  { type_tag := some "Book"
    item_id := 1
    title := "X"
    author := some "A"
    director := none
    artist := none
    category := some "General"
    status := some "Checked Out"
    checkout_count := some 3 }

/-- The item `load_from_file` builds from `c5_record`: status restored to
`CheckedOut` but holder and due date left at their fresh defaults. -/
def c5_loaded : LibraryItem :=
  { mk_fresh_item 1 "X" "General" ItemKind.book with
    status := ItemStatus.checkedOut
    checkout_count := 3 }

/-- Counterexample to C5 as stated: importing a record saved in the
`Checked Out` status yields an item whose status is `CheckedOut` with no
holder, so the invariant does not survive the import operation. -/
theorem import_breaks_invariant :
    load_item c5_record = some c5_loaded ∧
    c5_loaded.status = ItemStatus.checkedOut ∧
    c5_loaded.current_patron = none ∧
    ¬ item_invariant c5_loaded :=
  ⟨by decide, rfl, rfl, fun hinv => absurd (hinv.1.mpr rfl) (by decide)⟩

/-- A record with no kind discriminator at all (`'type'` key absent). -/
def c9_record : ItemRecord :=
  { type_tag := none
    item_id := 2
    title := "Y"
    author := none
    director := none
    artist := none
    category := none
    status := none
    checkout_count := none }

/-- The Book that `load_from_file` builds for the kind-less `c9_record`. -/
def c9_loaded : LibraryItem := mk_fresh_item 2 "Y" "General" ItemKind.book

/-- Counterexample to C9 as stated: a record whose kind tag is missing is
not skipped — `item_data.pop('type', 'Book')` defaults it to `Book` and an
item is created. -/
theorem missing_kind_defaults_to_book :
    load_item c9_record = some c9_loaded ∧ c9_loaded.kind = ItemKind.book :=
  ⟨by decide, rfl⟩

/-- C9 (amended): on import, a record with an unknown kind tag is skipped
(no item is created), but a record with a missing kind tag is treated exactly
as if tagged `Book` — it defaults to Book rather than being skipped. -/
theorem load_item_kind_handling (r : ItemRecord) :
    (∀ tag : String, r.type_tag = some tag → tag ≠ "Book" → tag ≠ "DVD" →
      tag ≠ "CD" → load_item r = none) ∧
    (r.type_tag = none →
      load_item r = load_item { r with type_tag := some "Book" }) := by
  constructor
  · intro tag htag hb hd hc
    unfold load_item
    simp [htag, hb, hd, hc]
  · intro h
    unfold load_item
    simp [h]

/-- Witness for C9 (amended): a `Magazine` record is skipped, and the
kind-less record loads exactly as its `Book`-tagged copy. -/
theorem load_item_kind_handling_witness :
    load_item { c9_record with type_tag := some "Magazine" } = none ∧
    load_item c9_record = load_item { c9_record with type_tag := some "Book" } :=
  ⟨(load_item_kind_handling { c9_record with type_tag := some "Magazine" }).1
      "Magazine" rfl (by decide) (by decide) (by decide),
   (load_item_kind_handling c9_record).2 rfl⟩
